import Mathlib

/-!
Shallow embedding of the thales agent-execution core.

Conventions used throughout this development:
* Python `datetime.now()` timestamps are modeled as `Nat` values passed
  explicitly to each operation (one parameter per distinct call site where
  the distinction matters); `timedelta` differences are modeled as `Int`.
* Python floats appearing in the modeled code (progress, feasibility,
  confidence, quality) only ever carry small exact decimal values, so they
  are modeled as `Rat`.
* Python exceptions are modeled with `Except String`; a function that
  catches all exceptions is total in the model.
* Python object aliasing (the ontology stores references to the very Goal
  and Task objects the executor mutates) is modeled by threading the
  mutated record explicitly through the executor, alongside the ontology.
-/

namespace Thales

/-- Enumeration `GoalStatus` from `agents/base/ontology/goalsClasses.py`. -/
inductive GoalStatus where
  | pending
  | in_progress
  | completed
  | failed
  | paused
  | cancelled
deriving Repr, DecidableEq

/-- Enumeration `GoalType` from `agents/base/ontology/goalsClasses.py`. -/
inductive GoalType where
  | achievement
  | maintenance
  | avoidance
  | exploration
deriving Repr, DecidableEq

/-- Enumeration `TaskStatus` from `agents/ontology/tasks.py` (identical in
`agents/base/ontology/capacities/Tasks.py`). -/
inductive TaskStatus where
  | pending
  | in_progress
  | completed
  | failed
  | blocked
  | cancelled
deriving Repr, DecidableEq

/-- Enumeration `TaskType` from `agents/ontology/tasks.py` (identical in
`agents/base/ontology/capacities/Tasks.py`). -/
inductive TaskType where
  | information_gathering
  | analysis
  | synthesis
  | execution
  | communication
  | validation
  | planning
  | monitoring
deriving Repr, DecidableEq

/-- Enumeration `AgentType` from `agents/base/ontology/identity.py`. -/
inductive AgentType where
  | general
  | rag
  | code
  | research
  | analysis
  | creative
  | coordinator
deriving Repr, DecidableEq

/-- Dataclass `AgentIdentity` from `agents/base/ontology/identity.py`.
The personality-trait dictionary and the communication/decision style enums
are carried but never read by any modeled code path. -/
structure AgentIdentity where
  agent_id : String
  name : String
  agent_type : AgentType
  version : String := "1.0.0"
  description : String := ""
  creator : String := "system"
  created_at : Nat := 0
  personality_traits : List (String × Rat) :=
    [("curiosity", 7/10), ("caution", 5/10), ("creativity", 6/10),
     ("persistence", 8/10), ("collaboration", 7/10), ("precision", 8/10)]
  domain_expertise : List String := []
  preferred_mcp_servers : List String := []
  operating_constraints : List String := []
deriving Repr, DecidableEq

/-- Dataclass `Goal` from `agents/base/ontology/goalsClasses.py` (the
relationship/criteria dictionaries that no modeled code path reads are
omitted). -/
structure Goal where
  goal_id : String
  description : String
  goal_type : GoalType := .achievement
  priority : Int := 1
  urgency : Int := 5
  completion_threshold : Rat := 1
  status : GoalStatus := .pending
  progress : Rat := 0
  created_at : Nat := 0
  updated_at : Nat := 0
  started_at : Option Nat := none
  completed_at : Option Nat := none
  attempts : Nat := 0
  failure_reasons : List String := []
  lessons_learned : List String := []
deriving Repr, DecidableEq

/-- Dataclass `RetryPolicy`, identical in `agents/ontology/tasks.py` and
`agents/base/ontology/capacities/Tasks.py`.  `retry_delay` is in seconds. -/
structure RetryPolicy where
  max_retries : Nat := 3
  retry_delay : Nat := 1
  backoff_multiplier : Rat := 2
  retry_on_failure_types : List String := ["timeout", "connection_error"]
deriving Repr, DecidableEq

/-- Dataclass `Task` from `agents/ontology/tasks.py`: the task record with
the `start_execution`/`complete_task`/`fail_task` interface that
`BaseAgent.execute_task` drives.  (`agents/base/ontology/__init__.py`
imports this record under the missing module name `tasksClasses`; the copy
in `agents/ontology/tasks.py` is the one present in the source tree with
exactly the methods the executor calls.)  `tool_used` models the attribute
the executor sets dynamically on the task object. -/
structure Task where
  task_id : String
  action : String
  task_type : TaskType
  description : String := ""
  parent_goal : String := ""
  parent_task : Option String := none
  sub_tasks : List String := []
  dependencies : List String := []
  required_tools : List String := []
  quality_threshold : Rat := 8/10
  retry_policy : RetryPolicy := {}
  result : Option String := none
  confidence : Rat := 0
  quality_score : Rat := 0
  feedback : List String := []
  error_messages : List String := []
  status : TaskStatus := .pending
  created_at : Nat := 0
  started_at : Option Nat := none
  completed_at : Option Nat := none
  duration : Option Int := none
  attempts : Nat := 0
  max_attempts : Nat := 3
  last_error : Option String := none
  tool_used : Option String := none
deriving Repr, DecidableEq

namespace Task

/-- Method `Task.start_execution` from `agents/ontology/tasks.py`. -/
def start_execution (t : Task) (now : Nat) : Task :=
  { t with status := .in_progress, started_at := some now, attempts := t.attempts + 1 }

/-- Method `Task.complete_task` from `agents/ontology/tasks.py`: sets the
completion fields and, when the task was started, the duration. -/
def complete_task (t : Task) (result : String) (confidence quality_score : Rat)
    (now : Nat) : Task :=
  let t1 := { t with status := .completed, completed_at := some now,
                     result := some result, confidence := confidence,
                     quality_score := quality_score }
  match t.started_at with
  | some s => { t1 with duration := some ((now : Int) - (s : Int)) }
  | none => t1

/-- Method `Task.fail_task` from `agents/ontology/tasks.py`. -/
def fail_task (t : Task) (error_message : String) (now : Nat) : Task :=
  let t1 := { t with status := .failed, last_error := some error_message,
                     error_messages :=
                       t.error_messages ++ [toString now ++ ": " ++ error_message] }
  match t.started_at with
  | some s => { t1 with duration := some ((now : Int) - (s : Int)) }
  | none => t1

/-- Method `Task.can_retry` from `agents/ontology/tasks.py`: compares
`attempts` against the task's own `max_attempts` field. -/
def can_retry (t : Task) : Bool :=
  t.attempts < t.max_attempts && t.status = TaskStatus.failed

end Task

namespace Capacities

/-- Dataclass `Task` from `agents/base/ontology/capacities/Tasks.py` (the
second, `mark_complete`/`mark_failed`-style task record). -/
structure Task where
  task_id : String
  action : String
  task_type : TaskType
  description : String := ""
  status : TaskStatus := .pending
  created_at : Nat := 0
  started_at : Option Nat := none
  completed_at : Option Nat := none
  duration : Option Int := none
  parent_goal : String := ""
  retry_policy : RetryPolicy := {}
  result : Option String := none
  error_messages : List String := []
  tool_used : Option String := none
  attempts : Nat := 0
  failure_reasons : List String := []
  lessons_learned : List String := []
deriving Repr, DecidableEq

/-- Method `Task.start` from `agents/base/ontology/capacities/Tasks.py`. -/
def Task.start (t : Task) (now : Nat) : Task :=
  { t with status := .in_progress, started_at := some now, attempts := t.attempts + 1 }

/-- Method `Task.mark_complete` from `agents/base/ontology/capacities/Tasks.py`. -/
def Task.mark_complete (t : Task) (result : String) (now : Nat) : Task :=
  let t1 := { t with status := .completed, completed_at := some now, result := some result }
  match t.started_at with
  | some s => { t1 with duration := some ((now : Int) - (s : Int)) }
  | none => t1

/-- Method `Task.mark_failed` from `agents/base/ontology/capacities/Tasks.py`. -/
def Task.mark_failed (t : Task) (error_message : String) (now : Nat) : Task :=
  let t1 := { t with status := .failed,
                     error_messages :=
                       t.error_messages ++ [toString now ++ ": " ++ error_message] }
  match t.started_at with
  | some s => { t1 with duration := some ((now : Int) - (s : Int)) }
  | none => t1

/-- Method `Task.can_retry` from `agents/base/ontology/capacities/Tasks.py`:
compares `attempts` against the retry policy's `max_retries`. -/
def Task.can_retry (t : Task) : Bool :=
  t.attempts < t.retry_policy.max_retries && t.status = TaskStatus.failed

end Capacities

/-- Python `str.lower()`, as the character list of the lowered string. -/
def pyLower (s : String) : List Char :=
  s.data.map Char.toLower

/-- Python substring containment `needle in hay` on lowered strings. -/
def strContainsSub (hay needle : List Char) : Bool :=
  decide (List.IsInfix needle hay)

/-- Dataclass `AgentOntology` from `agents/base/ontology/ontology.py`. -/
structure AgentOntology where
  identity : AgentIdentity
  current_goals : List Goal := []
  active_tasks : List Task := []
  completed_goals : List Goal := []
  completed_tasks : List Task := []
  created_at : Nat := 0
  last_updated : Nat := 0
deriving Repr, DecidableEq

namespace AgentOntology

/-- Method `AgentOntology.add_goal` from `ontology.py`: unconditionally
appends the goal and advances `last_updated`. -/
def add_goal (o : AgentOntology) (goal : Goal) (now : Nat) : AgentOntology :=
  { o with current_goals := o.current_goals ++ [goal], last_updated := now }

/-- Method `AgentOntology.add_task` from `ontology.py`: unconditionally
appends the task and advances `last_updated`. -/
def add_task (o : AgentOntology) (task : Task) (now : Nat) : AgentOntology :=
  { o with active_tasks := o.active_tasks ++ [task], last_updated := now }

/-- Helper modeling the `for i, goal in enumerate(self.current_goals)` loop
of `complete_goal`: find the first goal with the given id, mark it
completed, and pop it from the list; `none` when no goal matches. -/
def popGoal (goal_id : String) (now : Nat) : List Goal → Option (List Goal × Goal)
  | [] => none
  | g :: rest =>
    if g.goal_id = goal_id then
      some (rest, { g with status := .completed, completed_at := some now })
    else
      match popGoal goal_id now rest with
      | none => none
      | some (rest1, cg) => some (g :: rest1, cg)

/-- Method `AgentOntology.complete_goal` from `ontology.py`: moves the first
matching goal from `current_goals` to `completed_goals`; silently does
nothing when no goal has the given id. -/
def complete_goal (o : AgentOntology) (goal_id : String) (now : Nat) : AgentOntology :=
  match popGoal goal_id now o.current_goals with
  | none => o
  | some (rest, cg) =>
    { o with current_goals := rest,
             completed_goals := o.completed_goals ++ [cg],
             last_updated := now }

/-- Helper modeling the matching loop of `complete_task`, exactly as
`popGoal` but over tasks. -/
def popTask (task_id : String) (now : Nat) : List Task → Option (List Task × Task)
  | [] => none
  | t :: rest =>
    if t.task_id = task_id then
      some (rest, { t with status := .completed, completed_at := some now })
    else
      match popTask task_id now rest with
      | none => none
      | some (rest1, ct) => some (t :: rest1, ct)

/-- Method `AgentOntology.complete_task` from `ontology.py`: moves the first
matching task from `active_tasks` to `completed_tasks`; silently does
nothing when no task has the given id. -/
def complete_task (o : AgentOntology) (task_id : String) (now : Nat) : AgentOntology :=
  match popTask task_id now o.active_tasks with
  | none => o
  | some (rest, ct) =>
    { o with active_tasks := rest,
             completed_tasks := o.completed_tasks ++ [ct],
             last_updated := now }

/-- Method `AgentOntology.get_active_goals` from `ontology.py`. -/
def get_active_goals (o : AgentOntology) : List Goal :=
  o.current_goals.filter (fun g => g.status = GoalStatus.in_progress)

/-- Method `AgentOntology.get_pending_tasks` from `ontology.py`. -/
def get_pending_tasks (o : AgentOntology) : List Task :=
  o.active_tasks.filter (fun t => t.status = TaskStatus.pending)

/-- Method `AgentOntology.assess_goal_feasibility` from `ontology.py`: the
reference implementation returns the constant 0.7 for every goal. -/
def assess_goal_feasibility (_o : AgentOntology) (_goal : Goal) : Rat :=
  7/10

/-- Method `AgentOntology.validate_action` from `ontology.py`: returns
false exactly when some operating constraint of the identity occurs,
case-insensitively, inside the action name.  The `context` argument is
accepted and ignored, as in the source. -/
def validate_action (o : AgentOntology) (action : String)
    (_context : List (String × String)) : Bool :=
  !(o.identity.operating_constraints.any
      (fun c => strContainsSub (pyLower action) (pyLower c)))

end AgentOntology

/-- Relevant state of `EnhancedMCPClient` from `mcp/client/client.py`: the
key sets of the `sessions` and `active_servers` dictionaries. -/
structure MCPClientState where
  sessions : List String := []
  active_servers : List String := []
deriving Repr, DecidableEq

namespace MCPClientState

/-- Method `EnhancedMCPClient.connect` from `mcp/client/client.py`.
The outcomes of the externally-effectful steps are parameters:
`known` is whether `server_manager.get_server` finds a config (it raises a
ValueError otherwise, before the try block); `launchRes` is the outcome of
entering the stdio transport and client-session contexts; `handshakeRes`
is the outcome of the `session.initialize()` handshake; `toolsRes` is the
outcome of the post-handshake `session.list_tools()` query; `resourcesRes`
is the outcome of the best-effort `session.list_resources()` query, whose
failure is swallowed by an inner bare except.  The outer except clause
only logs and re-raises the original exception, and the session map is
NOT cleaned up there: registration into `sessions`/`active_servers`
happens right after the handshake, before the tool-list query. -/
def connect (st : MCPClientState) (server_name : String) (known : Bool)
    (launchRes : Except String Unit) (handshakeRes : Except String Unit)
    (toolsRes : Except String (List String))
    (resourcesRes : Except String (List String)) :
    MCPClientState × Except String Unit :=
  if server_name ∈ st.sessions then
    (st, .ok ())
  else if !known then
    (st, .error ("Unknown server: " ++ server_name))
  else
    match launchRes with
    | .error e => (st, .error e)
    | .ok () =>
      match handshakeRes with
      | .error e => (st, .error e)
      | .ok () =>
        let st1 := { st with sessions := st.sessions ++ [server_name],
                             active_servers := st.active_servers ++ [server_name] }
        match toolsRes with
        | .error e => (st1, .error e)
        | .ok _tools =>
          match resourcesRes with
          | .error _ => (st1, .ok ())
          | .ok _res => (st1, .ok ())

end MCPClientState

/-- Relevant state of `BaseAgent` from `agents/base/base.py`. -/
structure AgentState where
  ontology : AgentOntology
  mcp_client : MCPClientState := {}
  is_running : Bool := false
deriving Repr, DecidableEq

/-- Method `BaseAgent.start` from `agents/base/base.py`.  `connectRes`
gives, per server name, the outcome of `mcp_client.connect`; every
exception it raises is caught inside the loop (logged as a warning), so
the method itself is total.  Besides the updated state it returns the
list of servers a connection was attempted for, in order, which is empty
when the agent was already running (the early-return branch). -/
def startAgent (st : AgentState) (connectRes : String → Except String Unit) :
    AgentState × List String :=
  if st.is_running then
    (st, [])
  else
    let step := fun (acc : MCPClientState × List String) (server : String) =>
      match connectRes server with
      | .ok () => ({ acc.1 with sessions := acc.1.sessions ++ [server],
                                active_servers := acc.1.active_servers ++ [server] },
                   acc.2 ++ [server])
      | .error _ => (acc.1, acc.2 ++ [server])
    let final := st.ontology.identity.preferred_mcp_servers.foldl step (st.mcp_client, [])
    ({ st with mcp_client := final.1, is_running := true }, final.2)

/-- Dataclass `TaskResult` from `agents/base/base.py`. -/
structure TaskResult where
  task_id : String
  success : Bool
  result : Option String
  tool_used : Option String := none
  error : Option String := none
deriving Repr, DecidableEq

/-- Dataclass `GoalResult` from `agents/base/base.py`.  The `result`
payload is `None` on the feasibility and exception paths and the list of
task results otherwise. -/
structure GoalResult where
  goal_id : String
  success : Bool
  result : Option (List TaskResult)
  error : Option String := none
  execution_time : Option Nat := none
deriving Repr, DecidableEq

/-- Python f-string rendering of an `Optional[str]` value (None prints as
the string None). -/
def pyStrOpt : Option String → String
  | some s => s
  | none => "None"

/-- Method `BaseAgent.execute_task` from `agents/base/base.py`.  The
action handler (`_execute_task_action`) is a parameter: it receives the
started task and either returns the (possibly mutated, e.g. `tool_used`
set) task together with a result string, or raises.  `tStart` models the
`datetime.now()` of `start_execution`, `tEnd` the one of `complete_task`/
`ontology.complete_task`.  The try clause converts any handler exception
into a failure result after setting `task.status = FAILED` directly (it
does not call `fail_task`). -/
def execute_task (ont : AgentOntology)
    (handler : Task → Except String (Task × String))
    (tStart tEnd : Nat) (task : Task) : Task × AgentOntology × TaskResult :=
  if !(ont.validate_action task.action []) then
    (task, ont,
     { task_id := task.task_id, success := false, result := none,
       error := some ("Action " ++ task.action ++ " not allowed by agent constraints") })
  else
    let task1 := task.start_execution tStart
    match handler task1 with
    | .ok (task2, result) =>
      let task3 := task2.complete_task result (9/10) (8/10) tEnd
      let ont1 := ont.complete_task task3.task_id tEnd
      (task3, ont1,
       { task_id := task3.task_id, success := true, result := some result,
         tool_used := task3.tool_used })
    | .error e =>
      let task2 := { task1 with status := TaskStatus.failed }
      (task2, ont,
       { task_id := task2.task_id, success := false, result := none,
         error := some e })

/-- The task loop of `BaseAgent.execute_goal` (`for task in tasks: ...`).
Returns the final ontology, the accumulated task results, the ids of the
tasks `execute_task` was actually invoked on (in order), and, when a task
result came back unsuccessful, the id of that task together with the
formatted goal error string; iteration stops at the first failure. -/
def execGoalLoop (handler : Task → Except String (Task × String)) (now : Nat) :
    AgentOntology → List Task → List TaskResult → List String →
    AgentOntology × List TaskResult × List String × Option (String × String)
  | ont, [], acc, calls => (ont, acc, calls, none)
  | ont, task :: rest, acc, calls =>
    let ont1 := ont.add_task task now
    let out := execute_task ont1 handler now now task
    let tr := out.2.2
    let acc1 := acc ++ [tr]
    let calls1 := calls ++ [task.task_id]
    if tr.success then
      execGoalLoop handler now out.2.1 rest acc1 calls1
    else
      (out.2.1, acc1, calls1,
       some (task.task_id, "Task " ++ task.task_id ++ " failed: " ++ pyStrOpt tr.error))

/-- Aggregate outcome of `BaseAgent.execute_goal`: the goal object as the
caller sees it afterwards (Python mutates it in place), the ontology, the
returned `GoalResult`, and the ids of the tasks that were executed. -/
structure GoalOutcome where
  goal : Goal
  ont : AgentOntology
  result : GoalResult
  calls : List String
deriving Repr, DecidableEq

/-- Method `BaseAgent.execute_goal` from `agents/base/base.py`, with the
decomposition outcome (`_decompose_goal_into_tasks` never raises in its
modeled error modes; it returns a task list, empty on LLM error or empty
decomposition) passed in as `decomposed`.  `t0` models the `start_time`
stamp at entry (also used for `started_at`), `t1` every later
`datetime.now()` call.  Mirrors the source exactly: a failing task marks
the goal failed and returns early with the results so far; an exhausted
loop (including the zero-task case) marks the goal completed. -/
def execute_goal (ont : AgentOntology)
    (handler : Task → Except String (Task × String))
    (goal : Goal) (decomposed : List Task) (t0 t1 : Nat) : GoalOutcome :=
  let feasibility := ont.assess_goal_feasibility goal
  if feasibility < 3/10 then
    { goal := goal, ont := ont,
      result := { goal_id := goal.goal_id, success := false, result := none,
                  error := some "Goal feasibility too low" },
      calls := [] }
  else
    let ont1 := ont.add_goal goal t0
    let goal1 := { goal with status := GoalStatus.in_progress, started_at := some t0 }
    let out := execGoalLoop handler t1 ont1 decomposed [] []
    match out.2.2.2 with
    | some (_tid, msg) =>
      let goal2 := { goal1 with status := GoalStatus.failed }
      { goal := goal2, ont := out.1,
        result := { goal_id := goal.goal_id, success := false,
                    result := some out.2.1, error := some msg,
                    execution_time := some (t1 - t0) },
        calls := out.2.2.1 }
    | none =>
      let goal2 := { goal1 with status := GoalStatus.completed,
                                completed_at := some t1, progress := 1 }
      let ont2 := out.1.complete_goal goal.goal_id t1
      { goal := goal2, ont := ont2,
        result := { goal_id := goal.goal_id, success := true,
                    result := some out.2.1,
                    execution_time := some (t1 - t0) },
        calls := out.2.2.1 }

/-- Output item of the LLM decomposition boundary (`llm/models.py`
`TaskOutput`). -/
structure TaskOutput where
  action : String
  task_type : TaskType
  description : String
deriving Repr, DecidableEq

/-- Method `BaseAgent._decompose_goal_into_tasks` from
`agents/base/base.py`, with the two LLM calls replaced by their outcomes:
`textError` is `response.error` of the `generate_text` call and
`structured` the `DecomposedTasks` model returned by
`generate_structured_output` (with its task list).  On an LLM error, a
missing model, or an empty task list it logs and returns the empty list;
otherwise it builds one `Task` per output, stamping a fresh id (`ids i`
models `uuid.uuid4()` for the i-th task) and the parent goal. -/
def decompose_goal_into_tasks (goal : Goal) (textError : Option String)
    (structured : Option (List TaskOutput)) (ids : Nat → String) : List Task :=
  if textError.isSome then
    []
  else
    match structured with
    | none => []
    | some [] => []
    | some touts =>
      touts.enum.map (fun p =>
        { task_id := ids p.1, action := p.2.action, task_type := p.2.task_type,
          description := p.2.description, parent_goal := goal.goal_id })

/-- Lifecycle operations applicable to a `Task` record in the modeled
code: the three methods of `agents/ontology/tasks.py` plus the executor's
exception path from `BaseAgent.execute_task`, which sets
`status = FAILED` directly without touching any other field. -/
inductive TaskOp where
  | startOp (now : Nat)
  | completeOp (result : String) (confidence quality_score : Rat) (now : Nat)
  | failOp (error_message : String) (now : Nat)
  | executorFailOp
deriving Repr, DecidableEq

/-- Application of one lifecycle operation to a task. -/
def applyTaskOp (t : Task) : TaskOp → Task
  | .startOp now => t.start_execution now
  | .completeOp result confidence quality_score now =>
      t.complete_task result confidence quality_score now
  | .failOp msg now => t.fail_task msg now
  | .executorFailOp => { t with status := TaskStatus.failed }

/-- Run of a sequence of lifecycle operations. -/
def runTaskOps (t : Task) (ops : List TaskOp) : Task :=
  ops.foldl applyTaskOp t

/-! Shared demonstration fixtures used by concrete instances. -/

/-- Identity whose only operating constraint is the string from Scenario D. -/
def demoIdentity : AgentIdentity :=
  { agent_id := "agent-1", name := "DemoAgent", agent_type := .general,
    preferred_mcp_servers := ["local-math", "filesystem"],
    operating_constraints := ["delete"] }

/-- Ontology owned by `demoIdentity`, with empty collections. -/
def demoOntology : AgentOntology := { identity := demoIdentity }

/-- Goal fixture. -/
def demoGoal : Goal :=
  { goal_id := "goal-1", description := "Calculate the square root of 144" }

/-- Task fixture with an action no constraint matches. -/
def demoTask : Task :=
  { task_id := "task-1", action := "analyze_goal", task_type := .analysis,
    parent_goal := "goal-1" }

/-- Action handler that always succeeds. -/
def okHandler : Task → Except String (Task × String) :=
  fun t => .ok (t, "done")

/-! Shared helper lemmas. -/

/-- The reference feasibility score (constant 0.7) is never below the 0.3
threshold, so the fail-fast gate of `execute_goal` never fires. -/
theorem feasibility_not_below (o : AgentOntology) (g : Goal) :
    ¬ (o.assess_goal_feasibility g < 3/10) := by
  unfold AgentOntology.assess_goal_feasibility
  norm_num

/-- When no stored goal has the requested id, the matching loop of
`complete_goal` finds nothing. -/
theorem popGoal_eq_none (goal_id : String) (now : Nat) (gs : List Goal)
    (h : ∀ g ∈ gs, g.goal_id ≠ goal_id) :
    AgentOntology.popGoal goal_id now gs = none := by
  induction gs with
  | nil => rfl
  | cons g rest ih =>
    unfold AgentOntology.popGoal
    rw [if_neg (h g (List.mem_cons_self g rest)), ih (fun x hx => h x (List.mem_cons_of_mem g hx))]

/-- When no stored task has the requested id, the matching loop of
`complete_task` finds nothing. -/
theorem popTask_eq_none (task_id : String) (now : Nat) (ts : List Task)
    (h : ∀ t ∈ ts, t.task_id ≠ task_id) :
    AgentOntology.popTask task_id now ts = none := by
  induction ts with
  | nil => rfl
  | cons t rest ih =>
    unfold AgentOntology.popTask
    rw [if_neg (h t (List.mem_cons_self t rest)), ih (fun x hx => h x (List.mem_cons_of_mem t hx))]

/-! Claim C8. -/

/-- C8: `validate_action(action, context)` returns false if and only if
some entry of the identity's `operating_constraints` occurs as a
case-insensitive substring of the action name; with an empty constraint
list every action is allowed; in particular, with constraints
`["delete"]`, `"delete_system_files"` is rejected and
`"calculate_square_root"` is allowed. -/
theorem c8_validate_action_constraint_substring :
    (∀ (o : AgentOntology) (action : String) (context : List (String × String)),
      o.validate_action action context = false ↔
        ∃ c ∈ o.identity.operating_constraints,
          List.IsInfix (pyLower c) (pyLower action)) ∧
    (∀ (o : AgentOntology) (action : String) (context : List (String × String)),
      o.identity.operating_constraints = [] →
        o.validate_action action context = true) ∧
    demoOntology.validate_action "delete_system_files" [] = false ∧
    demoOntology.validate_action "calculate_square_root" [] = true := by
  refine ⟨?_, ?_, by decide, by decide⟩
  · intro o action context
    simp [AgentOntology.validate_action, strContainsSub, List.any_eq_true]
  · intro o action context h
    simp [AgentOntology.validate_action, h]

/-- Witness for C8 at concrete inputs: the iff instantiated at the demo
ontology and an empty-constraint ontology allowing an arbitrary action. -/
theorem c8_validate_action_constraint_substring_witness :
    (demoOntology.validate_action "delete_system_files" [] = false ↔
      ∃ c ∈ demoOntology.identity.operating_constraints,
        List.IsInfix (pyLower c) (pyLower "delete_system_files")) ∧
    ({ identity := { agent_id := "a", name := "n", agent_type := .general } } :
        AgentOntology).validate_action "anything" [] = true :=
  ⟨c8_validate_action_constraint_substring.1 demoOntology "delete_system_files" [],
   c8_validate_action_constraint_substring.2.1
     { identity := { agent_id := "a", name := "n", agent_type := .general } }
     "anything" [] rfl⟩

/-! Claim C9. -/

/-- C9: for every ontology state and every id matching no stored goal
(resp. task), `complete_goal` (resp. `complete_task`) raises nothing and
leaves the whole ontology record unchanged, `last_updated` and the
active/completed collections included. -/
theorem c9_complete_unknown_id_is_noop (o : AgentOntology)
    (goal_id task_id : String) (now : Nat)
    (hg : ∀ g ∈ o.current_goals, g.goal_id ≠ goal_id)
    (ht : ∀ t ∈ o.active_tasks, t.task_id ≠ task_id) :
    o.complete_goal goal_id now = o ∧ o.complete_task task_id now = o := by
  constructor
  · unfold AgentOntology.complete_goal
    rw [popGoal_eq_none goal_id now o.current_goals hg]
  · unfold AgentOntology.complete_task
    rw [popTask_eq_none task_id now o.active_tasks ht]

/-- Witness for C9: an ontology holding one goal and one task, completed
under an id that matches neither. -/
theorem c9_complete_unknown_id_is_noop_witness :
    ({ demoOntology with current_goals := [demoGoal],
                         active_tasks := [demoTask] } : AgentOntology).complete_goal
        "missing-id" 77 =
      { demoOntology with current_goals := [demoGoal], active_tasks := [demoTask] } ∧
    ({ demoOntology with current_goals := [demoGoal],
                         active_tasks := [demoTask] } : AgentOntology).complete_task
        "missing-id" 77 =
      { demoOntology with current_goals := [demoGoal], active_tasks := [demoTask] } :=
  c9_complete_unknown_id_is_noop
    { demoOntology with current_goals := [demoGoal], active_tasks := [demoTask] }
    "missing-id" "missing-id" 77
    (by intro g hgmem; simp [demoGoal] at hgmem ⊢; simp [hgmem])
    (by intro t htmem; simp [demoTask] at htmem ⊢; simp [htmem])

/-! Claim C10. -/

/-- The attempted-connection list accumulated by the per-server loop of
`BaseAgent.start` is the full preferred-server list, whatever each
connection attempt returns. -/
theorem startAgent_attempts_all (connectRes : String → Except String Unit)
    (servers : List String) :
    ∀ (cl : MCPClientState) (acc : List String),
      (servers.foldl
        (fun (acc1 : MCPClientState × List String) (server : String) =>
          match connectRes server with
          | .ok () => ({ acc1.1 with sessions := acc1.1.sessions ++ [server],
                                     active_servers := acc1.1.active_servers ++ [server] },
                       acc1.2 ++ [server])
          | .error _ => (acc1.1, acc1.2 ++ [server])) (cl, acc)).2 = acc ++ servers := by
  induction servers with
  | nil => intro cl acc; simp
  | cons s rest ih =>
    intro cl acc
    cases h : connectRes s with
    | ok u => cases u; simp [List.foldl_cons, h, ih]
    | error e => simp [List.foldl_cons, h, ih]

/-- C10: `start()` never propagates a connection exception (it is total
for every family of connection outcomes) and always leaves the agent with
`is_running = true`; a second call while running is a no-op that attempts
no connections, while a first call attempts every preferred server even
if all attempts fail. -/
theorem c10_start_total_always_running (st : AgentState)
    (connectRes : String → Except String Unit) :
    (startAgent st connectRes).1.is_running = true ∧
    (st.is_running = true → startAgent st connectRes = (st, [])) ∧
    (st.is_running = false →
      (startAgent st connectRes).2 = st.ontology.identity.preferred_mcp_servers) := by
  by_cases h : st.is_running
  · refine ⟨?_, fun _ => ?_, fun hc => absurd h (by simp [hc])⟩
    · simp [startAgent, h]
    · simp [startAgent, h]
  · refine ⟨?_, fun hc => absurd hc (by simp [h]), fun _ => ?_⟩
    · simp [startAgent, h]
    · simp only [startAgent, h, Bool.false_eq_true, if_false]
      exact startAgent_attempts_all connectRes st.ontology.identity.preferred_mcp_servers
        st.mcp_client []

/-- Witness for C10: a stopped agent whose every preferred connection
fails still comes up running and attempts both servers; the same agent,
already running, is left untouched with no attempts. -/
theorem c10_start_total_always_running_witness :
    (startAgent { ontology := demoOntology } (fun s => .error ("no " ++ s))).1.is_running
      = true ∧
    (startAgent { ontology := demoOntology, is_running := true }
        (fun s => .error ("no " ++ s)) =
      ({ ontology := demoOntology, is_running := true }, [])) ∧
    (startAgent { ontology := demoOntology } (fun s => .error ("no " ++ s))).2
      = ["local-math", "filesystem"] :=
  ⟨(c10_start_total_always_running { ontology := demoOntology } _).1,
   (c10_start_total_always_running { ontology := demoOntology, is_running := true } _).2.1
     rfl,
   (c10_start_total_always_running { ontology := demoOntology } _).2.2 rfl⟩

/-! Claim C3. -/

/-- Counterexample to C3: admitting the same goal (resp. task) twice is
not a no-op — `add_goal`/`add_task` have no duplicate-id check, so the
second admission appends a second entry with the same id and advances
`last_updated` again. -/
theorem c3_counterexample :
    ((demoOntology.add_goal demoGoal 1).add_goal demoGoal 2).current_goals
      = [demoGoal, demoGoal] ∧
    ((demoOntology.add_goal demoGoal 1).add_goal demoGoal 2).last_updated = 2 ∧
    ((demoOntology.add_task demoTask 1).add_task demoTask 2).active_tasks
      = [demoTask, demoTask] ∧
    ((demoOntology.add_task demoTask 1).add_task demoTask 2).last_updated = 2 := by
  refine ⟨?_, rfl, ?_, rfl⟩ <;>
    simp [AgentOntology.add_goal, AgentOntology.add_task, demoOntology]

/-- C3 amended: `add_goal` (resp. `add_task`) unconditionally appends the
given record to `current_goals` (resp. `active_tasks`) and advances
`last_updated`, with no duplicate-id check of any kind: re-adding a record
whose id was already admitted appends a duplicate entry instead of being a
no-op. -/
theorem c3_add_always_appends (o : AgentOntology) (g : Goal) (tk : Task) (now : Nat) :
    (o.add_goal g now).current_goals = o.current_goals ++ [g] ∧
    (o.add_goal g now).last_updated = now ∧
    (o.add_task tk now).active_tasks = o.active_tasks ++ [tk] ∧
    (o.add_task tk now).last_updated = now :=
  ⟨rfl, rfl, rfl, rfl⟩

/-! Claim C6. -/

/-- Task fixture for the retry-policy discrepancy: `failed`, one attempt
spent, `max_attempts` exhausted but `retry_policy.max_retries` not. -/
def retryDemoTask : Task :=
  { task_id := "task-r", action := "analyze_goal", task_type := .analysis,
    status := .failed, attempts := 1, max_attempts := 1,
    retry_policy := { max_retries := 5 } }

/-- Counterexample to C6: on the task record the executor uses
(`agents/ontology/tasks.py`), `can_retry` compares `attempts` against the
task's own `max_attempts` field, not against `retry_policy.max_retries`;
a failed task with `attempts = 1`, `max_attempts = 1` and
`retry_policy.max_retries = 5` cannot retry even though the claim says it
can. -/
theorem c6_counterexample :
    retryDemoTask.status = TaskStatus.failed ∧
    retryDemoTask.attempts < retryDemoTask.retry_policy.max_retries ∧
    retryDemoTask.can_retry = false :=
  ⟨rfl, by decide, rfl⟩

/-- C6 amended: the `capacities/Tasks.py` variant of `can_retry` returns
true iff the task is failed and `attempts < retry_policy.max_retries`
(false as soon as attempts reaches that bound), but the
`agents/ontology/tasks.py` variant — the record the executor drives —
compares against the task's separate `max_attempts` field (default 3)
and ignores the retry policy. -/
theorem c6_can_retry_characterization (t : Task) (c : Capacities.Task) :
    (t.can_retry = true ↔
      t.status = TaskStatus.failed ∧ t.attempts < t.max_attempts) ∧
    (c.can_retry = true ↔
      c.status = TaskStatus.failed ∧ c.attempts < c.retry_policy.max_retries) := by
  constructor <;>
    · simp [Task.can_retry, Capacities.Task.can_retry, Bool.and_eq_true,
        decide_eq_true_eq, and_comm]

/-! Claim C5. -/

/-- Action handler that always raises. -/
def boomHandler : Task → Except String (Task × String) :=
  fun _ => .error "boom"

/-- Counterexample to C5: when the action handler raises, `execute_task`
sets the task's status to failed but appends nothing to its
error-message list — the except clause assigns `status = FAILED` directly
and never calls `fail_task`, so `error_messages` stays empty. -/
theorem c5_counterexample :
    (execute_task demoOntology boomHandler 0 1 demoTask).1.status = TaskStatus.failed ∧
    (execute_task demoOntology boomHandler 0 1 demoTask).1.error_messages = [] ∧
    (execute_task demoOntology boomHandler 0 1 demoTask).2.2.success = false ∧
    (execute_task demoOntology boomHandler 0 1 demoTask).2.2.error = some "boom" :=
  ⟨rfl, rfl, rfl, rfl⟩

/-- C5 amended: for every task whose action passes validation, when the
action handler raises, `execute_task` sets the task's status to failed
directly — leaving `error_messages`, `duration` and the ontology
untouched (it does not call `fail_task`) — and returns a
`TaskResult` with `success = false` and the error string set; no
exception escapes (`execute_task` is total over all handler outcomes). -/
theorem c5_handler_exception_fails_task (ont : AgentOntology)
    (handler : Task → Except String (Task × String)) (tS tE : Nat)
    (task : Task) (e : String)
    (hv : ont.validate_action task.action [] = true)
    (hh : handler (task.start_execution tS) = .error e) :
    (execute_task ont handler tS tE task).1.status = TaskStatus.failed ∧
    (execute_task ont handler tS tE task).1.error_messages = task.error_messages ∧
    (execute_task ont handler tS tE task).1.duration = task.duration ∧
    (execute_task ont handler tS tE task).2.1 = ont ∧
    (execute_task ont handler tS tE task).2.2 =
      { task_id := task.task_id, success := false, result := none, error := some e } := by
  have hcond : (!(ont.validate_action task.action [])) = false := by rw [hv]; rfl
  simp only [execute_task, hcond, Bool.false_eq_true, if_false, hh]
  simp [Task.start_execution]

/-- Witness for C5 at concrete inputs. -/
theorem c5_handler_exception_fails_task_witness :
    (execute_task demoOntology boomHandler 3 9 demoTask).1.status = TaskStatus.failed ∧
    (execute_task demoOntology boomHandler 3 9 demoTask).1.error_messages
      = demoTask.error_messages ∧
    (execute_task demoOntology boomHandler 3 9 demoTask).1.duration = demoTask.duration ∧
    (execute_task demoOntology boomHandler 3 9 demoTask).2.1 = demoOntology ∧
    (execute_task demoOntology boomHandler 3 9 demoTask).2.2 =
      { task_id := demoTask.task_id, success := false, result := none,
        error := some "boom" } :=
  c5_handler_exception_fails_task demoOntology boomHandler 3 9 demoTask "boom"
    (by decide) rfl

/-! Claim C7. -/

/-- Duration/start consistency predicate over one task record: duration is
set only after a start, and a completed-and-started task's duration is
exactly its completion time minus its start time. -/
def TaskDurationInv (t : Task) : Prop :=
  (t.duration ≠ none → t.started_at ≠ none) ∧
  (t.status = TaskStatus.completed → ∀ s, t.started_at = some s →
    ∃ c, t.completed_at = some c ∧ t.duration = some ((c : Int) - (s : Int)))

/-- Each lifecycle operation preserves the duration invariant. -/
theorem taskDurationInv_applyTaskOp (t : Task) (h : TaskDurationInv t) (op : TaskOp) :
    TaskDurationInv (applyTaskOp t op) := by
  obtain ⟨h1, h2⟩ := h
  cases op with
  | startOp now =>
    constructor
    · intro _
      simp [applyTaskOp, Task.start_execution]
    · intro hst
      simp [applyTaskOp, Task.start_execution] at hst
  | completeOp result confidence quality now =>
    constructor
    · intro hd
      cases hs : t.started_at with
      | some s => simp [applyTaskOp, Task.complete_task, hs]
      | none =>
        simp only [applyTaskOp, Task.complete_task, hs] at hd
        exact absurd hs (h1 hd)
    · intro _ s hs
      cases hs0 : t.started_at with
      | none =>
        simp [applyTaskOp, Task.complete_task, hs0] at hs
      | some s0 =>
        simp only [applyTaskOp, Task.complete_task, hs0] at hs ⊢
        obtain rfl : s0 = s := by simpa using hs
        exact ⟨now, by simp⟩
  | failOp msg now =>
    constructor
    · intro hd
      cases hs : t.started_at with
      | some s => simp [applyTaskOp, Task.fail_task, hs]
      | none =>
        simp only [applyTaskOp, Task.fail_task, hs] at hd
        exact absurd hs (h1 hd)
    · intro hst
      cases hs : t.started_at <;>
        simp [applyTaskOp, Task.fail_task, hs] at hst
  | executorFailOp =>
    constructor
    · intro hd
      simp only [applyTaskOp] at hd ⊢
      exact h1 hd
    · intro hst
      simp [applyTaskOp] at hst

/-- Counterexample to C7: a task started at time 5 and then failed through
the executor's exception path (`task.status = FAILED` with no other
bookkeeping) has `started_at` set and has reached failure, yet its
`duration` is still null — refuting the claimed iff. -/
theorem c7_counterexample :
    (runTaskOps demoTask [TaskOp.startOp 5, TaskOp.executorFailOp]).status
      = TaskStatus.failed ∧
    (runTaskOps demoTask [TaskOp.startOp 5, TaskOp.executorFailOp]).started_at
      = some 5 ∧
    (runTaskOps demoTask [TaskOp.startOp 5, TaskOp.executorFailOp]).duration = none :=
  ⟨rfl, rfl, rfl⟩

/-- C7 amended: under every sequence of lifecycle operations (start,
completion, failure, and the executor's failure path), `duration` is
non-null only if `started_at` is set, and a task whose status is
completed and whose `started_at` is set has
`duration = completed_at - started_at`; the converse direction of the
original claim fails, because the executor's failure path marks the task
failed without setting `duration`. -/
theorem c7_duration_invariant (t : Task) (ops : List TaskOp)
    (h : TaskDurationInv t) : TaskDurationInv (runTaskOps t ops) := by
  induction ops generalizing t with
  | nil => exact h
  | cons op rest ih =>
    exact ih (applyTaskOp t op) (taskDurationInv_applyTaskOp t h op)

/-- Witness for C7: the invariant holds after a concrete start/complete
run from the fresh fixture task (whose invariant holds vacuously). -/
theorem c7_duration_invariant_witness :
    TaskDurationInv (runTaskOps demoTask
      [TaskOp.startOp 2, TaskOp.completeOp "done" 1 1 6]) :=
  c7_duration_invariant demoTask [TaskOp.startOp 2, TaskOp.completeOp "done" 1 1 6]
    (by constructor
        · intro hd
          simp [demoTask] at hd
        · intro hst
          simp [demoTask] at hst)

/-! Claim C4. -/

/-- Counterexample to C4: when the post-handshake tool-list query raises,
the server stays registered — `connect` put the session into `sessions`
right after the handshake and the except clause does not tear it down —
and the propagated error is the original exception re-raised unchanged,
not a ConnectionError naming the server. -/
theorem c4_counterexample :
    (MCPClientState.connect {} "filesystem" true (.ok ()) (.ok ())
        (.error "boom") (.ok [])).1.sessions = ["filesystem"] ∧
    (MCPClientState.connect {} "filesystem" true (.ok ()) (.ok ())
        (.error "boom") (.ok [])).2 = .error "boom" :=
  ⟨rfl, rfl⟩

/-- C4 amended: an exception during the transport launch or the handshake
leaves the client state unchanged (the server is never registered) and is
re-raised as-is; but an exception during the post-handshake tool-list
query happens after registration, which the except clause does not undo,
so the server remains in `sessions` and `active_servers` while the
original exception is re-raised — never wrapped into a ConnectionError. -/
theorem c4_connect_error_paths (st : MCPClientState) (server_name e : String)
    (handshakeRes : Except String Unit) (toolsRes : Except String (List String))
    (resourcesRes : Except String (List String))
    (h : server_name ∉ st.sessions) :
    MCPClientState.connect st server_name true (.error e) handshakeRes toolsRes
        resourcesRes = (st, .error e) ∧
    MCPClientState.connect st server_name true (.ok ()) (.error e) toolsRes
        resourcesRes = (st, .error e) ∧
    (MCPClientState.connect st server_name true (.ok ()) (.ok ()) (.error e)
        resourcesRes).1.sessions = st.sessions ++ [server_name] ∧
    (MCPClientState.connect st server_name true (.ok ()) (.ok ()) (.error e)
        resourcesRes).1.active_servers = st.active_servers ++ [server_name] ∧
    (MCPClientState.connect st server_name true (.ok ()) (.ok ()) (.error e)
        resourcesRes).2 = .error e := by
  simp [MCPClientState.connect, h]

/-- Witness for C4's amended statement: a fresh client connecting to
"filesystem" under each of the three failure modes. -/
theorem c4_connect_error_paths_witness :
    MCPClientState.connect {} "filesystem" true (.error "spawn failed") (.ok ())
        (.ok []) (.ok []) = ({}, .error "spawn failed") ∧
    MCPClientState.connect {} "filesystem" true (.ok ()) (.error "spawn failed")
        (.ok []) (.ok []) = ({}, .error "spawn failed") ∧
    (MCPClientState.connect {} "filesystem" true (.ok ()) (.ok ())
        (.error "spawn failed") (.ok [])).1.sessions
      = ({} : MCPClientState).sessions ++ ["filesystem"] ∧
    (MCPClientState.connect {} "filesystem" true (.ok ()) (.ok ())
        (.error "spawn failed") (.ok [])).1.active_servers
      = ({} : MCPClientState).active_servers ++ ["filesystem"] ∧
    (MCPClientState.connect {} "filesystem" true (.ok ()) (.ok ())
        (.error "spawn failed") (.ok [])).2 = .error "spawn failed" :=
  c4_connect_error_paths {} "filesystem" "spawn failed" (.ok ()) (.ok []) (.ok [])
    (by simp)

/-! Claim C1. -/

/-- On an LLM error, a missing structured output, or an empty decomposed
task list, `_decompose_goal_into_tasks` returns the empty list. -/
theorem decompose_empty_on_error (goal : Goal) (textError : Option String)
    (structured : Option (List TaskOutput)) (ids : Nat → String)
    (h : textError.isSome ∨ structured = none ∨ structured = some []) :
    decompose_goal_into_tasks goal textError structured ids = [] := by
  unfold decompose_goal_into_tasks
  rcases h with h | h | h
  · simp [h]
  · cases he : textError.isSome <;> simp [h, he]
  · cases he : textError.isSome <;> simp [h, he]

/-- Counterexample to C1: when decomposition reports an error (here: the
LLM text call returns an error, so the decomposition yields zero tasks),
`execute_goal` runs the task loop zero times and falls through to the
all-tasks-succeeded branch — it returns success=true with an empty result
list and marks the goal completed with progress 1.0, not success=false
with the goal left in_progress. -/
theorem c1_counterexample :
    (execute_goal demoOntology okHandler demoGoal
      (decompose_goal_into_tasks demoGoal (some "LLM error") none (fun _ => "id"))
      0 1).result.success = true ∧
    (execute_goal demoOntology okHandler demoGoal
      (decompose_goal_into_tasks demoGoal (some "LLM error") none (fun _ => "id"))
      0 1).result.result = some [] ∧
    (execute_goal demoOntology okHandler demoGoal
      (decompose_goal_into_tasks demoGoal (some "LLM error") none (fun _ => "id"))
      0 1).goal.status = GoalStatus.completed ∧
    (execute_goal demoOntology okHandler demoGoal
      (decompose_goal_into_tasks demoGoal (some "LLM error") none (fun _ => "id"))
      0 1).goal.progress = 1 := by
  simp [decompose_goal_into_tasks, execute_goal, execGoalLoop, feasibility_not_below]

/-- C1 amended: for every goal whose decomposition reports an error or
returns zero tasks, `execute_goal` executes no task and treats the empty
task list as "all tasks succeeded": it returns a GoalResult with
success=true, an empty task-result list and no error, and the goal's
status is set to completed with progress 1.0 (neither left in_progress
nor marked failed). -/
theorem c1_empty_decomposition_completes_goal (ont : AgentOntology)
    (handler : Task → Except String (Task × String)) (goal : Goal)
    (textError : Option String) (structured : Option (List TaskOutput))
    (ids : Nat → String) (t0 t1 : Nat)
    (h : textError.isSome ∨ structured = none ∨ structured = some []) :
    (execute_goal ont handler goal
      (decompose_goal_into_tasks goal textError structured ids) t0 t1).result.success
        = true ∧
    (execute_goal ont handler goal
      (decompose_goal_into_tasks goal textError structured ids) t0 t1).result.result
        = some [] ∧
    (execute_goal ont handler goal
      (decompose_goal_into_tasks goal textError structured ids) t0 t1).result.error
        = none ∧
    (execute_goal ont handler goal
      (decompose_goal_into_tasks goal textError structured ids) t0 t1).goal.status
        = GoalStatus.completed ∧
    (execute_goal ont handler goal
      (decompose_goal_into_tasks goal textError structured ids) t0 t1).goal.progress
        = 1 ∧
    (execute_goal ont handler goal
      (decompose_goal_into_tasks goal textError structured ids) t0 t1).calls = [] := by
  rw [decompose_empty_on_error goal textError structured ids h]
  simp [execute_goal, execGoalLoop, feasibility_not_below]

/-- Witness for C1's amended statement at the concrete LLM-error input. -/
theorem c1_empty_decomposition_completes_goal_witness :
    (execute_goal demoOntology okHandler demoGoal
      (decompose_goal_into_tasks demoGoal (some "LLM failure") (some []) (fun _ => "id"))
      0 1).result.success = true ∧
    (execute_goal demoOntology okHandler demoGoal
      (decompose_goal_into_tasks demoGoal (some "LLM failure") (some []) (fun _ => "id"))
      0 1).result.result = some [] ∧
    (execute_goal demoOntology okHandler demoGoal
      (decompose_goal_into_tasks demoGoal (some "LLM failure") (some []) (fun _ => "id"))
      0 1).result.error = none ∧
    (execute_goal demoOntology okHandler demoGoal
      (decompose_goal_into_tasks demoGoal (some "LLM failure") (some []) (fun _ => "id"))
      0 1).goal.status = GoalStatus.completed ∧
    (execute_goal demoOntology okHandler demoGoal
      (decompose_goal_into_tasks demoGoal (some "LLM failure") (some []) (fun _ => "id"))
      0 1).goal.progress = 1 ∧
    (execute_goal demoOntology okHandler demoGoal
      (decompose_goal_into_tasks demoGoal (some "LLM failure") (some []) (fun _ => "id"))
      0 1).calls = [] :=
  c1_empty_decomposition_completes_goal demoOntology okHandler demoGoal
    (some "LLM failure") (some []) (fun _ => "id") 0 1 (Or.inl rfl)

/-! Claim C2: infrastructure.  The `TaskResult` a task produces depends
only on the agent's identity (through `validate_action`), the handler and
the timestamps — not on the rest of the evolving ontology — which lets
the first-failure run of the task loop be characterized task by task. -/

/-- The task id survives `complete_task`. -/
theorem complete_task_task_id (t : Task) (r : String) (c q : Rat) (now : Nat) :
    (t.complete_task r c q now).task_id = t.task_id := by
  unfold Task.complete_task
  cases t.started_at <;> rfl

/-- The tool-used field survives `complete_task`. -/
theorem complete_task_tool_used (t : Task) (r : String) (c q : Rat) (now : Nat) :
    (t.complete_task r c q now).tool_used = t.tool_used := by
  unfold Task.complete_task
  cases t.started_at <;> rfl

/-- The `TaskResult` produced by one `execute_task` call, as a function of
the identity alone (plus handler, timestamps and the task itself). -/
def runTaskResult (ident : AgentIdentity)
    (handler : Task → Except String (Task × String)) (tS _tE : Nat)
    (task : Task) : TaskResult :=
  if !(({ identity := ident } : AgentOntology).validate_action task.action []) then
    { task_id := task.task_id, success := false, result := none,
      error := some ("Action " ++ task.action ++ " not allowed by agent constraints") }
  else
    match handler (task.start_execution tS) with
    | .ok (task2, result) =>
      { task_id := task2.task_id, success := true, result := some result,
        tool_used := task2.tool_used }
    | .error e =>
      { task_id := task.task_id, success := false, result := none, error := some e }

/-- Ontology mutators do not touch the identity: `add_goal`. -/
theorem add_goal_identity (o : AgentOntology) (g : Goal) (now : Nat) :
    (o.add_goal g now).identity = o.identity := rfl

/-- Ontology mutators do not touch the identity: `add_task`. -/
theorem add_task_identity (o : AgentOntology) (t : Task) (now : Nat) :
    (o.add_task t now).identity = o.identity := rfl

/-- Ontology mutators do not touch the identity: `complete_task`. -/
theorem complete_task_identity (o : AgentOntology) (task_id : String) (now : Nat) :
    (o.complete_task task_id now).identity = o.identity := by
  unfold AgentOntology.complete_task
  cases AgentOntology.popTask task_id now o.active_tasks with
  | none => rfl
  | some p => rfl

/-- The `TaskResult` component of `execute_task` factors through the
identity. -/
theorem execute_task_taskResult (ont : AgentOntology)
    (handler : Task → Except String (Task × String)) (tS tE : Nat) (task : Task) :
    (execute_task ont handler tS tE task).2.2
      = runTaskResult ont.identity handler tS tE task := by
  have hval : ({ identity := ont.identity } : AgentOntology).validate_action task.action []
      = ont.validate_action task.action [] := rfl
  unfold execute_task runTaskResult
  rw [hval]
  cases hb : ont.validate_action task.action [] with
  | false => rfl
  | true =>
    simp only [Bool.not_true, Bool.false_eq_true, if_false]
    cases hh : handler (task.start_execution tS) with
    | ok p =>
      obtain ⟨t2, r⟩ := p
      simp [complete_task_task_id, complete_task_tool_used]
    | error e => rfl

/-- The ontology component of `execute_task` keeps the identity. -/
theorem execute_task_identity (ont : AgentOntology)
    (handler : Task → Except String (Task × String)) (tS tE : Nat) (task : Task) :
    (execute_task ont handler tS tE task).2.1.identity = ont.identity := by
  unfold execute_task
  cases hb : (!(ont.validate_action task.action [])) with
  | true => simp only [if_true]
  | false =>
    simp only [Bool.false_eq_true, if_false]
    cases hh : handler (task.start_execution tS) with
    | ok p =>
      obtain ⟨t2, r⟩ := p
      simp [complete_task_identity]
    | error e => rfl

/-- One unfolding step of the task loop. -/
theorem execGoalLoop_cons (handler : Task → Except String (Task × String))
    (now : Nat) (ont : AgentOntology) (task : Task) (rest : List Task)
    (acc : List TaskResult) (calls : List String) :
    execGoalLoop handler now ont (task :: rest) acc calls =
      if (execute_task (ont.add_task task now) handler now now task).2.2.success then
        execGoalLoop handler now
          (execute_task (ont.add_task task now) handler now now task).2.1 rest
          (acc ++ [(execute_task (ont.add_task task now) handler now now task).2.2])
          (calls ++ [task.task_id])
      else
        ((execute_task (ont.add_task task now) handler now now task).2.1,
         acc ++ [(execute_task (ont.add_task task now) handler now now task).2.2],
         calls ++ [task.task_id],
         some (task.task_id, "Task " ++ task.task_id ++ " failed: "
           ++ pyStrOpt (execute_task (ont.add_task task now) handler now now task).2.2.error)) :=
  rfl

/-- Characterization of the task loop on a list whose first failing task
is `tf`: the loop executes exactly the prefix and `tf`, accumulates
exactly their task results, and stops with `tf`'s error message. -/
theorem execGoalLoop_first_failure (ident : AgentIdentity)
    (handler : Task → Except String (Task × String)) (now : Nat)
    (tf : Task) (post : List Task)
    (hf : (runTaskResult ident handler now now tf).success = false) :
    ∀ (pre : List Task) (ont : AgentOntology) (acc : List TaskResult)
      (calls : List String), ont.identity = ident →
      (∀ t ∈ pre, (runTaskResult ident handler now now t).success = true) →
      (execGoalLoop handler now ont (pre ++ tf :: post) acc calls).2.1
          = acc ++ (pre ++ [tf]).map (runTaskResult ident handler now now) ∧
      (execGoalLoop handler now ont (pre ++ tf :: post) acc calls).2.2.1
          = calls ++ (pre ++ [tf]).map Task.task_id ∧
      (execGoalLoop handler now ont (pre ++ tf :: post) acc calls).2.2.2
          = some (tf.task_id, "Task " ++ tf.task_id ++ " failed: "
              ++ pyStrOpt (runTaskResult ident handler now now tf).error) := by
  intro pre
  induction pre with
  | nil =>
    intro ont acc calls hid _
    have hres : (execute_task (ont.add_task tf now) handler now now tf).2.2
        = runTaskResult ident handler now now tf := by
      rw [execute_task_taskResult, add_task_identity, hid]
    rw [List.nil_append, execGoalLoop_cons, hres, hf]
    simp
  | cons p pre1 ih =>
    intro ont acc calls hid hpre
    have hres : (execute_task (ont.add_task p now) handler now now p).2.2
        = runTaskResult ident handler now now p := by
      rw [execute_task_taskResult, add_task_identity, hid]
    have hsucc : (execute_task (ont.add_task p now) handler now now p).2.2.success
        = true := by
      rw [hres]; exact hpre p (List.mem_cons_self p pre1)
    have hid1 : (execute_task (ont.add_task p now) handler now now p).2.1.identity
        = ident := by
      rw [execute_task_identity, add_task_identity, hid]
    rw [List.cons_append, execGoalLoop_cons, if_pos hsucc]
    obtain ⟨ih1, ih2, ih3⟩ := ih
      (execute_task (ont.add_task p now) handler now now p).2.1
      (acc ++ [(execute_task (ont.add_task p now) handler now now p).2.2])
      (calls ++ [p.task_id]) hid1
      (fun t ht => hpre t (List.mem_cons_of_mem p ht))
    refine ⟨?_, ?_, ih3⟩
    · rw [ih1, hres]
      simp
    · rw [ih2]
      simp

/-- C2: when the decomposition is non-empty and some task's execution
returns success=false, `execute_goal` marks the goal failed, executes no
task after the first failing one (the executed-task trace is exactly the
ids of the prefix plus the failing task), and returns success=false with
the task results up to and including the failing task and an error string
containing the failing task's id. -/
theorem c2_first_task_failure_aborts_goal (ont : AgentOntology)
    (handler : Task → Except String (Task × String)) (goal : Goal)
    (pre post : List Task) (tf : Task) (t0 t1 : Nat)
    (hpre : ∀ t ∈ pre, (runTaskResult ont.identity handler t1 t1 t).success = true)
    (hf : (runTaskResult ont.identity handler t1 t1 tf).success = false) :
    (execute_goal ont handler goal (pre ++ tf :: post) t0 t1).result.success = false ∧
    (execute_goal ont handler goal (pre ++ tf :: post) t0 t1).goal.status
        = GoalStatus.failed ∧
    (execute_goal ont handler goal (pre ++ tf :: post) t0 t1).calls
        = (pre ++ [tf]).map Task.task_id ∧
    (execute_goal ont handler goal (pre ++ tf :: post) t0 t1).result.result
        = some ((pre ++ [tf]).map (runTaskResult ont.identity handler t1 t1)) ∧
    (∃ suffix, (execute_goal ont handler goal (pre ++ tf :: post) t0 t1).result.error
        = some ("Task " ++ tf.task_id ++ " failed: " ++ suffix)) := by
  obtain ⟨hres, hcalls, herr⟩ := execGoalLoop_first_failure ont.identity handler t1 tf
    post hf pre (ont.add_goal goal t0) [] [] (add_goal_identity ont goal t0)
    hpre
  refine ⟨?_, ?_, ?_, ?_, ?_⟩
  · simp [execute_goal, if_neg (feasibility_not_below ont goal), herr]
  · simp [execute_goal, if_neg (feasibility_not_below ont goal), herr]
  · simp [execute_goal, if_neg (feasibility_not_below ont goal), herr, hcalls]
  · simp [execute_goal, if_neg (feasibility_not_below ont goal), herr, hres]
  · refine ⟨pyStrOpt (runTaskResult ont.identity handler t1 t1 tf).error, ?_⟩
    simp [execute_goal, if_neg (feasibility_not_below ont goal), herr]

/-- Second task fixture, whose handler invocation will raise. -/
def demoTask2 : Task :=
  { task_id := "task-2", action := "calculate_square_root", task_type := .execution,
    parent_goal := "goal-1" }

/-- Third task fixture, never reached in the failing scenario. -/
def demoTask3 : Task :=
  { task_id := "task-3", action := "validate_result", task_type := .validation,
    parent_goal := "goal-1" }

/-- Handler raising exactly on the second fixture task (Scenario B: the
second task's tool invocation raises). -/
def mixedHandler : Task → Except String (Task × String) :=
  fun t => if t.task_id = "task-2" then .error "boom" else .ok (t, "done")

/-- Witness for C2: three decomposed tasks, the second of which fails;
everything is evaluated at the demo ontology. -/
theorem c2_first_task_failure_aborts_goal_witness :
    (execute_goal demoOntology mixedHandler demoGoal
        ([demoTask] ++ demoTask2 :: [demoTask3]) 0 1).result.success = false ∧
    (execute_goal demoOntology mixedHandler demoGoal
        ([demoTask] ++ demoTask2 :: [demoTask3]) 0 1).goal.status
        = GoalStatus.failed ∧
    (execute_goal demoOntology mixedHandler demoGoal
        ([demoTask] ++ demoTask2 :: [demoTask3]) 0 1).calls
        = ([demoTask] ++ [demoTask2]).map Task.task_id ∧
    (execute_goal demoOntology mixedHandler demoGoal
        ([demoTask] ++ demoTask2 :: [demoTask3]) 0 1).result.result
        = some (([demoTask] ++ [demoTask2]).map
            (runTaskResult demoOntology.identity mixedHandler 1 1)) ∧
    (∃ suffix, (execute_goal demoOntology mixedHandler demoGoal
        ([demoTask] ++ demoTask2 :: [demoTask3]) 0 1).result.error
        = some ("Task " ++ demoTask2.task_id ++ " failed: " ++ suffix)) :=
  c2_first_task_failure_aborts_goal demoOntology mixedHandler demoGoal
    [demoTask] [demoTask3] demoTask2 0 1
    (by intro t ht
        simp only [List.mem_singleton] at ht
        subst ht
        decide)
    (by decide)

end Thales
